import Mathlib

/-!
Shallow embedding of the synchronization core of the `futures-theory`
repository (a study reimplementation of the futures crates):

* `src/futures-channel/src/lock.rs`   — the exclusive-access cell `Lock<T>`
  and its RAII guard `TryLock<'_, T>`;
* `src/futures-core/src/task/__internal/atomic_waker.rs` — the lock-free
  wake registry `AtomicWaker`;
* `src/futures-channel/src/oneshot.rs` — the one-shot channel shared state
  `Inner<T>` and the `Sender`/`Receiver` handles.

Modelling conventions:

* A `Waker` (resumption handle) is abstracted by a `Nat` identity; invoking
  wakers is recorded as the list of identities woken, in order.
* Atomic cells become plain fields of an explicit state record which the
  operations thread through; every atomic load/store/swap of the source is
  mirrored by a read/update of the corresponding field.
* Each operation of the source runs its body sequentially.  Where the source
  deliberately re-checks an atomic after releasing a lock (the race windows
  in `Inner::send`, `Inner::poll_canceled`, and `AtomicWaker::register`),
  the model takes the possible concurrent interference at that program point
  as an explicit parameter (`env`, `wakeArrived`), so the re-check branches
  of the source are reachable exactly as they are in the concurrent program.
* Panics of the source (`assert!`, `Option::unwrap`, `todo!()`) become
  distinguished result constructors.
-/

namespace FuturesTheory

/-! ### `futures-channel/src/lock.rs` -/

/-- State of `Lock<T>`: the atomic `locked: AtomicBool` flag plus the
interior value kept in the `UnsafeCell`. -/
structure Lock (T : Type) where
  locked : Bool
  data : T
  deriving Repr, DecidableEq

namespace Lock

/-- Source `Lock::new`: flag starts false. -/
def new {T : Type} (t : T) : Lock T :=
  { locked := false, data := t }

/-- Source `Lock::try_lock`: `locked.swap(true, SeqCst)`; if the old value
was `false` the caller obtains a guard that can read and mutate the interior
value, otherwise `None`.  The first component is the guard's view of the
data (`some` on success), the second the lock state after the swap. -/
def try_lock {T : Type} (l : Lock T) : Option T × Lock T :=
  if l.locked then (none, l)
  else (some l.data, { l with locked := true })

end Lock

/-- Source `impl Drop for TryLock`: releasing the guard stores `false`
into the flag unconditionally; `t` is the interior value as (possibly)
mutated through the guard's `DerefMut` access during its lifetime. -/
def TryLock.drop {T : Type} (_l : Lock T) (t : T) : Lock T :=
  { locked := false, data := t }

/-! ### `futures-core/src/task/__internal/atomic_waker.rs`

The source keeps `state: AtomicUsize` over the bit flags
`WAITING = 0`, `REGISTERING = 0b01`, `WAKING = 0b10`; every reachable value
is one of `{0, 1, 2, 3}`, so the state is modelled by the two bits as
`Bool` fields (`registering` = bit 0, `waking` = bit 1;
`WAITING` is both false). -/

/-- State of `AtomicWaker`: the two bits of `state: AtomicUsize` and the
`waker: UnsafeCell<Option<Waker>>` slot. -/
structure AtomicWaker where
  registering : Bool
  waking : Bool
  waker : Option Nat
  deriving Repr, DecidableEq

namespace AtomicWaker

/-- Source `AtomicWaker::new`: state `WAITING`, empty slot. -/
def new : AtomicWaker :=
  { registering := false, waking := false, waker := none }

/-- Source `AtomicWaker::take`: `fetch_or(WAKING)`; if the old state was
`WAITING`, take the slot's contents and then `fetch_and(!WAKING)` (which,
from state `WAKING`, restores `WAITING`); otherwise leave the `WAKING` bit
set and return nothing. -/
def take (s : AtomicWaker) : AtomicWaker × Option Nat :=
  if s.registering = false ∧ s.waking = false then
    ({ registering := false, waking := false, waker := none }, s.waker)
  else
    ({ s with waking := true }, none)

/-- Source `AtomicWaker::wake`: `take` and invoke the result if present.
The second component lists the handles invoked. -/
def wake (s : AtomicWaker) : AtomicWaker × List Nat :=
  match s.take with
  | (s', some w) => (s', [w])
  | (s', none) => (s', [])

/-- Source `AtomicWaker::register`.  `wakeArrived` says whether, inside the
race window between storing the handle and the confirming
`compare_exchange(REGISTERING, WAITING)`, a concurrent `take`/`wake` ran:
such a call observes a non-`WAITING` state, so its whole effect is
`fetch_or(WAKING)` — it sets the `WAKING` bit and touches nothing else,
which is exactly what the `wakeArrived` branch applies.  The result is
`none` when the source would panic (the `unwrap` of the slot), and
otherwise the final state together with the handles invoked. -/
def register (s : AtomicWaker) (w : Nat) (wakeArrived : Bool) :
    Option (AtomicWaker × List Nat) :=
  if s.registering = false ∧ s.waking = false then
    -- compare_exchange(WAITING, REGISTERING) succeeded; store the handle
    let s1 : AtomicWaker := { registering := true, waking := false, waker := some w }
    let s2 := if wakeArrived then { s1 with waking := true } else s1
    -- compare_exchange(REGISTERING, WAITING)
    if s2.registering = true ∧ s2.waking = false then
      some ({ s2 with registering := false }, [])
    else
      -- Err(actual): take the stored waker (unwrap), swap to WAITING, wake it
      match s2.waker with
      | some w2 =>
        some ({ registering := false, waking := false, waker := none }, [w2])
      | none => none
  else if s.registering = false ∧ s.waking = true then
    -- old state == WAKING: wake the caller's handle immediately, store nothing
    some (s, [w])
  else
    -- old state == REGISTERING or REGISTERING | WAKING: no-op
    some (s, [])

end AtomicWaker

/-! ### `futures-channel/src/oneshot.rs` -/

/-- Outcome of `Inner::send`: `Ok(())`, `Err(t)` (the value handed back to
the caller), or a panic of the `assert!(slot.is_none())`. -/
inductive SendResult (T : Type) where
  | ok : SendResult T
  | err : T → SendResult T
  | panics : SendResult T
  deriving Repr, DecidableEq

/-- `Poll<()>` as returned by `Inner::poll_canceled`. -/
inductive PollU where
  | ready : PollU
  | pending : PollU
  deriving Repr, DecidableEq

/-- Outcome of `Inner::try_recv` (`Result<Option<T>, Canceled>` in the
source, plus a constructor for divergence by panic). -/
inductive RecvResult (T : Type) where
  | ok : Option T → RecvResult T
  | canceled : RecvResult T
  | panics : RecvResult T
  deriving Repr, DecidableEq

/-- Shared state `Inner<T>` of the one-shot channel: the atomic `complete`
flag, the payload slot `data`, and the two waker slots `rx_task` and
`tx_task`, each protected by a `Lock`. -/
structure Inner (T : Type) where
  complete : Bool
  data : Lock (Option T)
  rx_task : Lock (Option Nat)
  tx_task : Lock (Option Nat)
  deriving Repr, DecidableEq

namespace Inner

/-- Source `Inner::new`: `complete` starts false, every slot empty and
unlocked. -/
def new {T : Type} : Inner T :=
  { complete := false
    data := Lock.new none
    rx_task := Lock.new none
    tx_task := Lock.new none }

/-- Source `Inner::send`.  `env` is the interference of the other thread
inside the race window the source re-checks for: between `drop(slot)` (the
release of the payload guard after storing the value) and the second
`complete.load(SeqCst)`. -/
def send {T : Type} (s : Inner T) (t : T) (env : Inner T → Inner T) :
    SendResult T × Inner T :=
  if s.complete then (.err t, s)
  else
    match Lock.try_lock s.data with
    | (none, d) => (.err t, { s with data := d })
    | (some slot, d) =>
      if slot.isSome then
        -- assert!(slot.is_none()) fails
        (.panics, { s with data := d })
      else
        -- *slot = Some(t); drop(slot)
        let s1 := { s with data := TryLock.drop d (some t) }
        let s2 := env s1
        if s2.complete then
          match Lock.try_lock s2.data with
          | (none, d2) => (.ok, { s2 with data := d2 })
          | (some slot2, d2) =>
            match slot2 with
            | some t2 =>
              -- slot.take() yielded the value: reclaim and return it
              (.err t2, { s2 with data := TryLock.drop d2 none })
            | none => (.ok, { s2 with data := TryLock.drop d2 none })
        else (.ok, s2)

/-- Source `Inner::poll_canceled`.  `handle` is the identity of
`ctx.waker().clone()`; `env` is the interference inside the race window
between the registration (release of the `tx_task` guard) and the second
`complete.load(SeqCst)`. -/
def poll_canceled {T : Type} (s : Inner T) (handle : Nat)
    (env : Inner T → Inner T) : PollU × Inner T :=
  if s.complete then (.ready, s)
  else
    match Lock.try_lock s.tx_task with
    | (none, tx) => (.ready, { s with tx_task := tx })
    | (some _, tx) =>
      -- *p = Some(handle); guard dropped at the end of the match arm
      let s1 := { s with tx_task := TryLock.drop tx (some handle) }
      let s2 := env s1
      if s2.complete then (.ready, s2) else (.pending, s2)

/-- Source `Inner::is_canceled`: snapshot of `complete`. -/
def is_canceled {T : Type} (s : Inner T) : Bool :=
  s.complete

/-- Source `Inner::drop_tx` (run by `Drop for Sender`): store `true` into
`complete`, wake and drain the registered `tx_task` handle, then drain the
slot a second time.  The list collects the handles woken. -/
def drop_tx {T : Type} (s : Inner T) : Inner T × List Nat :=
  let s0 := { s with complete := true }
  let (s1, woken) :=
    match Lock.try_lock s0.tx_task with
    | (none, tx) => ({ s0 with tx_task := tx }, ([] : List Nat))
    | (some slot, tx) =>
      match slot with
      | some task => ({ s0 with tx_task := TryLock.drop tx none }, [task])
      | none => ({ s0 with tx_task := TryLock.drop tx none }, [])
  match Lock.try_lock s1.tx_task with
  | (none, tx) => ({ s1 with tx_task := tx }, woken)
  | (some _, tx) => ({ s1 with tx_task := TryLock.drop tx none }, woken)

/-- Source `Inner::close_rx`: the source stores `false` into `complete`
(where `drop_tx` stores `true`), then wakes and drains the registered
`tx_task` handle. -/
def close_rx {T : Type} (s : Inner T) : Inner T × List Nat :=
  let s0 := { s with complete := false }
  match Lock.try_lock s0.tx_task with
  | (none, tx) => ({ s0 with tx_task := tx }, [])
  | (some slot, tx) =>
    match slot with
    | some task => ({ s0 with tx_task := TryLock.drop tx none }, [task])
    | none => ({ s0 with tx_task := TryLock.drop tx none }, [])

/-- Source `Inner::try_recv`: the body is an unconditional `todo!()`, so
every call diverges by panic, leaving the state untouched. -/
def try_recv {T : Type} (s : Inner T) : RecvResult T × Inner T :=
  (.panics, s)

end Inner

/-- Source `Sender::send`: delegates to `Inner::send`, and — because the
signature takes `self` by value — drops the `Sender` on return, which runs
`Drop for Sender`, i.e. `Inner::drop_tx`.  Returns the send result, the
final shared state, and the handles woken by the drop. -/
def Sender.send {T : Type} (s : Inner T) (t : T) (env : Inner T → Inner T) :
    SendResult T × Inner T × List Nat :=
  let (r, s1) := Inner.send s t env
  let (s2, woken) := Inner.drop_tx s1
  (r, s2, woken)

/-! ### Theorems for the claims -/

/-- Claim C1 (failing input).  On a fresh channel, `Inner::send 5` succeeds,
but the receive path cannot yield the value: `Inner::try_recv` is an
unconditional `todo!()` and panics, so polling/receiving never produces `5`
(and `Receiver` exposes no other receiving operation at all). -/
theorem c1_receive_path_panics :
    (Inner.send (Inner.new (T := Nat)) 5 id).1 = SendResult.ok ∧
    (Inner.try_recv (Inner.send (Inner.new (T := Nat)) 5 id).2).1
      = RecvResult.panics :=
  ⟨rfl, rfl⟩

/-- Claim C2 (failing input).  After the receiver's close path
(`Inner::close_rx`) runs on a fresh channel with no send, the source has
stored `false` into `complete`, so `is_canceled()` reports `false` and
`poll_canceled` returns `Pending` — not `true` and `Ready` as claimed. -/
theorem c2_close_rx_leaves_not_canceled :
    Inner.is_canceled (Inner.close_rx (Inner.new (T := Nat))).1 = false ∧
    (Inner.poll_canceled (Inner.close_rx (Inner.new (T := Nat))).1 0 id).1
      = PollU.pending :=
  ⟨rfl, rfl⟩

/-- Claim C3.  `Inner::send t` returns `Err(t)` when `complete` is already
true, and when the payload slot cannot be acquired; otherwise it stores `t`
and re-checks `complete` after the interference `env`: if `complete` became
true and the value is still present it is reclaimed and returned as
`Err(t)`, and in every other post-store case the result is `Ok(())`. -/
theorem c3_send_spec {T : Type} (s : Inner T) (t : T)
    (env : Inner T → Inner T) :
    (s.complete = true → Inner.send s t env = (.err t, s)) ∧
    (s.complete = false → s.data.locked = true →
      Inner.send s t env = (.err t, s)) ∧
    (s.complete = false → s.data.locked = false → s.data.data = none →
      let s2 := env { s with data := { locked := false, data := some t } }
      (s2.complete = false → Inner.send s t env = (.ok, s2)) ∧
      (s2.complete = true → s2.data.locked = false → s2.data.data = some t →
        Inner.send s t env
          = (.err t, { s2 with data := { locked := false, data := none } })) ∧
      (s2.complete = true → s2.data.locked = true →
        (Inner.send s t env).1 = .ok) ∧
      (s2.complete = true → s2.data.locked = false → s2.data.data = none →
        Inner.send s t env
          = (.ok, { s2 with data := { locked := false, data := none } }))) := by
  refine ⟨fun hc => ?_, fun hc hl => ?_, fun hc hl hd => ?_⟩
  · simp [Inner.send, hc]
  · obtain ⟨c, ⟨dl, dv⟩, rxt, txt⟩ := s
    simp_all [Inner.send, Lock.try_lock]
  · intro s2
    refine ⟨fun h2 => ?_, fun h2 hl2 hd2 => ?_, fun h2 hl2 => ?_,
      fun h2 hl2 hd2 => ?_⟩
    · simp [Inner.send, Lock.try_lock, TryLock.drop, hc, hl, hd, s2] at h2 ⊢
      simp [h2]
    · simp [Inner.send, Lock.try_lock, TryLock.drop, hc, hl, hd, s2]
        at h2 hl2 hd2 ⊢
      simp [h2, hl2, hd2]
    · simp [Inner.send, Lock.try_lock, TryLock.drop, hc, hl, hd, s2]
        at h2 hl2 ⊢
      simp [h2, hl2]
    · simp [Inner.send, Lock.try_lock, TryLock.drop, hc, hl, hd, s2]
        at h2 hl2 hd2 ⊢
      simp [h2, hl2, hd2]

/-- Witness for C3 at a concrete input: a fresh channel is not complete,
its payload slot is unlocked and empty, and sending 5 with no interference
succeeds, leaving the value stored. -/
theorem c3_send_spec_witness :
    (Inner.new (T := Nat)).complete = false ∧
    (Inner.new (T := Nat)).data.locked = false ∧
    (Inner.new (T := Nat)).data.data = none ∧
    Inner.send (Inner.new (T := Nat)) 5 id
      = (.ok, { Inner.new (T := Nat) with
                  data := { locked := false, data := some 5 } }) :=
  ⟨rfl, rfl, rfl,
    ((c3_send_spec (Inner.new (T := Nat)) 5 id).2.2 rfl rfl rfl).1 rfl⟩

/-- Claim C4 (failing input).  `Inner::drop_tx` on a fresh channel sets
`complete` to true (a terminal event), but then running the receiver's
destruction path `Inner::close_rx` stores `false` into `complete` again:
the terminal state is left, and receiver destruction never sets the flag. -/
theorem c4_terminal_state_left :
    (Inner.drop_tx (Inner.new (T := Nat))).1.complete = true ∧
    (Inner.close_rx (Inner.drop_tx (Inner.new (T := Nat))).1).1.complete
      = false :=
  ⟨rfl, rfl⟩

/-- Claim C5.  `AtomicWaker::register` from the idle state stores the
handle and re-confirms idleness; if a wake arrived inside that window the
registering call itself takes the stored handle and invokes it (clearing
the slot).  From the `WAKING` state it invokes the caller's handle
immediately without storing it, and while another registration is in
flight it is a no-op.  No branch panics. -/
theorem c5_register_spec (s : AtomicWaker) (w : Nat) (b : Bool) :
    (s.registering = false → s.waking = false →
      AtomicWaker.register s w false
          = some ({ registering := false, waking := false, waker := some w },
                  []) ∧
      AtomicWaker.register s w true
          = some ({ registering := false, waking := false, waker := none },
                  [w])) ∧
    (s.registering = false → s.waking = true →
      AtomicWaker.register s w b = some (s, [w])) ∧
    (s.registering = true → AtomicWaker.register s w b = some (s, [])) := by
  refine ⟨fun hr hw => ⟨?_, ?_⟩, fun hr hw => ?_, fun hr => ?_⟩
  · simp [AtomicWaker.register, hr, hw]
  · simp [AtomicWaker.register, hr, hw]
  · simp [AtomicWaker.register, hr, hw]
  · simp [AtomicWaker.register, hr]

/-- Witness for C5 at a concrete input: on a fresh `AtomicWaker`,
registering handle 2 with no concurrent wake stores it, and registering
while a wake arrives in the window delivers it instead. -/
theorem c5_register_spec_witness :
    AtomicWaker.new.registering = false ∧ AtomicWaker.new.waking = false ∧
    AtomicWaker.register AtomicWaker.new 2 false
      = some ({ registering := false, waking := false, waker := some 2 },
              []) ∧
    AtomicWaker.register AtomicWaker.new 2 true
      = some ({ registering := false, waking := false, waker := none },
              [2]) :=
  ⟨rfl, rfl, ((c5_register_spec AtomicWaker.new 2 false).1 rfl rfl).1,
    ((c5_register_spec AtomicWaker.new 2 false).1 rfl rfl).2⟩

/-- Claim C6.  `Inner::poll_canceled` only ever returns `Ready` or
`Pending`; it returns `Ready` at once when `complete` is already true, and
otherwise (with the producer wake slot's lock free, as it is between
operations) it registers the handle in `tx_task` and re-checks `complete`
after the interference `env`, returning `Ready` exactly when `complete` is
now true and `Pending` otherwise. -/
theorem c6_poll_canceled_spec {T : Type} (s : Inner T) (h : Nat)
    (env : Inner T → Inner T) :
    ((Inner.poll_canceled s h env).1 = PollU.ready ∨
      (Inner.poll_canceled s h env).1 = PollU.pending) ∧
    (s.complete = true → Inner.poll_canceled s h env = (.ready, s)) ∧
    (s.complete = false → s.tx_task.locked = false →
      let s2 := env { s with tx_task := { locked := false, data := some h } }
      Inner.poll_canceled s h env
        = if s2.complete then (.ready, s2) else (.pending, s2)) := by
  refine ⟨?_, fun hc => ?_, fun hc hl => ?_⟩
  · cases hp : (Inner.poll_canceled s h env).1 with
    | ready => exact Or.inl rfl
    | pending => exact Or.inr rfl
  · simp [Inner.poll_canceled, hc]
  · intro s2
    by_cases h2 : s2.complete <;>
      simp_all [Inner.poll_canceled, Lock.try_lock, TryLock.drop, s2]

/-- Witness for C6 at a concrete input: a fresh channel is not complete and
its producer wake slot is unlocked, so polling for cancellation with handle
7 and no interference registers the handle and returns `Pending`. -/
theorem c6_poll_canceled_spec_witness :
    (Inner.new (T := Nat)).complete = false ∧
    (Inner.new (T := Nat)).tx_task.locked = false ∧
    Inner.poll_canceled (Inner.new (T := Nat)) 7 id
      = (.pending, { Inner.new (T := Nat) with
                       tx_task := { locked := false, data := some 7 } }) :=
  ⟨rfl, rfl, (c6_poll_canceled_spec (Inner.new (T := Nat)) 7 id).2.2 rfl rfl⟩

/-- Claim C7.  `AtomicWaker::wake` with nothing registered invokes no
handle (and the model is total: no branch panics); after a single
registration has left the handle in the slot, the first `wake` clears the
slot and delivers the handle, and a second `wake` in a row delivers
nothing, so the handle is delivered at most once. -/
theorem c7_wake_at_most_once (s : AtomicWaker) (w : Nat) :
    (s.waker = none → (AtomicWaker.wake s).2 = []) ∧
    (s.registering = false → s.waking = false → s.waker = some w →
      (AtomicWaker.wake s).1.waker = none ∧
      (AtomicWaker.wake s).2 = [w] ∧
      (AtomicWaker.wake (AtomicWaker.wake s).1).2 = []) ∧
    (∀ sR, AtomicWaker.register AtomicWaker.new w false = some (sR, []) →
      (AtomicWaker.wake sR).2 = [w] ∧
      (AtomicWaker.wake (AtomicWaker.wake sR).1).2 = []) := by
  refine ⟨fun hn => ?_, fun hr hw hs => ?_, fun sR hreg => ?_⟩
  · by_cases hi : s.registering = false ∧ s.waking = false <;>
      simp [AtomicWaker.wake, AtomicWaker.take, hi, hn]
  · simp [AtomicWaker.wake, AtomicWaker.take, hr, hw, hs]
  · simp [AtomicWaker.register, AtomicWaker.new] at hreg
    subst hreg
    simp [AtomicWaker.wake, AtomicWaker.take]

/-- Witness for C7 at a concrete input: waking a fresh (empty) registry
invokes nothing, and after handle 3 sits registered the first wake delivers
it, the second delivers nothing. -/
theorem c7_wake_at_most_once_witness :
    AtomicWaker.new.waker = none ∧
    (AtomicWaker.wake AtomicWaker.new).2 = [] ∧
    (AtomicWaker.wake
        { registering := false, waking := false, waker := some 3 }).2
      = [3] ∧
    (AtomicWaker.wake
        (AtomicWaker.wake
          { registering := false, waking := false, waker := some 3 }).1).2
      = [] :=
  ⟨rfl, (c7_wake_at_most_once AtomicWaker.new 3).1 rfl,
    ((c7_wake_at_most_once
        { registering := false, waking := false, waker := some 3 } 3).2.1
      rfl rfl rfl).2.1,
    ((c7_wake_at_most_once
        { registering := false, waking := false, waker := some 3 } 3).2.1
      rfl rfl rfl).2.2⟩

/-- Claim C8.  While a guard from a successful `try_lock` is live the flag
is set and every further `try_lock` returns `None` (so at most one live
guard exists); dropping the guard clears the flag unconditionally; and
after the guard is released a subsequent `try_lock` succeeds. -/
theorem c8_lock_mutual_exclusion {T : Type} (l : Lock T) (v : T) :
    (l.locked = true → (Lock.try_lock l).1 = none) ∧
    (TryLock.drop l v).locked = false ∧
    (l.locked = false →
      ∀ g l1, Lock.try_lock l = (some g, l1) →
        l1.locked = true ∧
        (Lock.try_lock l1).1 = none ∧
        Lock.try_lock (TryLock.drop l1 v)
          = (some v, { locked := true, data := v })) := by
  refine ⟨fun hl => ?_, rfl, fun hl g l1 hacq => ?_⟩
  · simp [Lock.try_lock, hl]
  · simp [Lock.try_lock, hl] at hacq
    rcases hacq with ⟨hg, hl1⟩
    subst hg
    rw [← hl1]
    exact ⟨rfl, by simp [Lock.try_lock], by simp [Lock.try_lock, TryLock.drop]⟩

/-- Witness for C8 at a concrete input: a fresh lock over 1 is unlocked;
acquiring it blocks a second acquisition, and after the guard drops (having
written 2) a new acquisition succeeds and sees 2. -/
theorem c8_lock_mutual_exclusion_witness :
    (Lock.new 1).locked = false ∧
    ((Lock.new 1).locked = true → (Lock.try_lock (Lock.new 1)).1 = none) ∧
    ((Lock.try_lock { locked := true, data := (1 : Nat) }).1 = none ∧
      Lock.try_lock (TryLock.drop { locked := true, data := (1 : Nat) } 2)
        = (some 2, { locked := true, data := 2 })) :=
  ⟨rfl, fun hl => (c8_lock_mutual_exclusion (Lock.new 1) 1).1 hl,
    ⟨((c8_lock_mutual_exclusion (Lock.new (1 : Nat)) 1).2.2 rfl 1
        { locked := true, data := 1 } rfl).2.1,
      ((c8_lock_mutual_exclusion (Lock.new (1 : Nat)) 2).2.2 rfl 1
          { locked := true, data := 1 } rfl).2.2⟩⟩

/-- Claim C9.  On a fresh channel a first `Sender::send v` succeeds, and
because `send` takes the `Sender` by value its drop marks the channel
complete; a second send of `w` then fails returning `w` unchanged — and it
still fails returning `w` even if the stored value has been removed from
the payload slot (the consumed case of the scenario). -/
theorem c9_second_send_fails (v w : Nat) :
    (Sender.send (Inner.new (T := Nat)) v id).1 = SendResult.ok ∧
    (Sender.send (Sender.send (Inner.new (T := Nat)) v id).2.1 w id).1
      = SendResult.err w ∧
    (Sender.send { (Sender.send (Inner.new (T := Nat)) v id).2.1 with
        data := Lock.new none } w id).1 = SendResult.err w :=
  ⟨rfl, rfl, rfl⟩

/-- Claim C10.  Every call to `Inner::try_recv`, from any state, diverges:
its body is an unconditional `todo!()` panic and it never yields a value
(the public `Receiver` type has no impl block at all, so it exposes no
operation for obtaining the sent value). -/
theorem c10_try_recv_unimplemented {T : Type} (s : Inner T) :
    Inner.try_recv s = (RecvResult.panics, s) :=
  rfl

end FuturesTheory
